import Mathlib

/-!
Shallow embedding of `src/components/common/PullToRefresh.vue` (Vue 3
pull-to-refresh component) and verification of its specification.

The component's reactive/script state is collected in one record `S`.
Numbers (pixel coordinates, distances, timestamps in ms) are modelled as ℚ.
Each event handler of the source becomes a pure function `S → S`,
parameterised by the environment it reads (`window.scrollY`, `Date.now()`,
the event's fields, the ancestor chain of the event target).  The async
`onRefresh` callback is modelled by an invocation counter `callbackCount`
(each `await props.onRefresh()` increments it), and the `setTimeout`
scheduling that runs in the `finally` blocks after the callback settles is
modelled by explicit functions returning the scheduled firing time.
The wheel inactivity timer is modelled by a pending flag plus deadline in
the state; `inactivityFire` is the body of the `setTimeout` callback.
-/

namespace PullToRefresh

/-- Component props that the gesture logic reads: `threshold` (default 60). -/
structure Config where
  threshold : ℚ
  deriving Repr, DecidableEq

/-- A DOM element as seen by `isScrollable`: its `nodeType === 1` test, its
computed `overflowY` style and its `scrollTop`. -/
structure DomNode where
  isElementNode : Bool
  overflowY : String
  scrollTop : ℚ
  deriving Repr, DecidableEq

/-- The component's mutable state: the refs `pullDistance`, `isRefreshing`,
`isPulling`, the plain variables `startY`, `isDragging`, and the wheel
adapter's variables `lastWheelTime`, `accumulatedDelta`,
`lastWheelEventTime`, together with the inactivity timer (pending flag and
absolute deadline) and the count of `onRefresh` invocations. -/
structure S where
  pullDistance : ℚ
  isRefreshing : Bool
  isPulling : Bool
  startY : ℚ
  isDragging : Bool
  lastWheelTime : ℚ
  accumulatedDelta : ℚ
  lastWheelEventTime : ℚ
  timerPending : Bool
  timerDeadline : ℚ
  callbackCount : ℕ
  deriving Repr, DecidableEq

/-- The state at mount: every ref at its initial value. -/
def initS : S :=
  { pullDistance := 0
    isRefreshing := false
    isPulling := false
    startY := 0
    isDragging := false
    lastWheelTime := 0
    accumulatedDelta := 0
    lastWheelEventTime := 0
    timerPending := false
    timerDeadline := 0
    callbackCount := 0 }

/-- `isScrollable(el)`: walk the ancestor chain from the event target up to
(but excluding) `containerRef`; skip non-element nodes; an ancestor whose
computed `overflowY` is `auto` or `scroll` and whose `scrollTop > 0` makes
the result `true`; reaching the boundary gives `false`.  The list is the
ancestor chain, target first. -/
def isScrollable : List DomNode → Bool
  | [] => false
  | n :: rest =>
    if n.isElementNode = false then isScrollable rest
    else if (n.overflowY = "auto" ∨ n.overflowY = "scroll") ∧ 0 < n.scrollTop then true
    else isScrollable rest

/-- `handleStart(y, target)`: only when `window.scrollY <= 5` and not
refreshing; a scrollable inner target is ignored; otherwise record `startY`
and set `isDragging`. -/
def handleStart (scrollY y : ℚ) (target : List DomNode) (s : S) : S :=
  if scrollY ≤ 5 ∧ s.isRefreshing = false then
    if isScrollable target then s
    else { s with startY := y, isDragging := true }
  else s

/-- `handleMove(y, e)`: no-op unless dragging and not refreshing; for
`diff = y - startY`, a positive `diff` at page top sets
`pullDistance = diff * 0.4` and `isPulling`; otherwise distance and
`isPulling` are cleared, and a negative `diff` also clears `isDragging`. -/
def handleMove (scrollY y : ℚ) (s : S) : S :=
  if s.isDragging = false then s
  else if s.isRefreshing then s
  else
    let diff := y - s.startY
    if 0 < diff ∧ scrollY ≤ 5 then
      { s with isPulling := true, pullDistance := diff * (2 / 5) }
    else
      let s1 := { s with isPulling := false, pullDistance := 0 }
      if diff < 0 then { s1 with isDragging := false } else s1

/-- `handleEnd()` up to and including the `await props.onRefresh()` call:
clears `isDragging`, returns if not pulling; at or above threshold it
clears `isPulling`, sets `isRefreshing`, snaps the distance to the
threshold and invokes the callback; below threshold it cancels. -/
def handleEnd (c : Config) (s : S) : S :=
  let s1 := { s with isDragging := false }
  if s1.isPulling = false then s1
  else if c.threshold ≤ s1.pullDistance then
    { s1 with isPulling := false
              isRefreshing := true
              pullDistance := c.threshold
              callbackCount := s1.callbackCount + 1 }
  else
    { s1 with isPulling := false, pullDistance := 0 }

/-- `executeRefresh()` up to and including the `await props.onRefresh()`
call: forces `isRefreshing`, clears `isPulling`, snaps the distance to the
threshold and invokes the callback (no pulling precondition, `isDragging`
untouched). -/
def executeRefresh (c : Config) (s : S) : S :=
  { s with isPulling := false
           isRefreshing := true
           pullDistance := c.threshold
           callbackCount := s.callbackCount + 1 }

/-- The settle delay of the `setTimeout` in both `finally` blocks and in the
`isLoading` watcher (ms). -/
def settleDelay : ℚ := 500

/-- The wheel inactivity timeout (ms). -/
def inactivityDelay : ℚ := 50

/-- `handleEnd`'s `finally` block: when the callback settles at
`settleTime`, it schedules the reset `setTimeout` unconditionally — the
`isLoading` prop is not consulted.  Returns the absolute time at which the
reset fires (`none` would mean no local reset is scheduled). -/
def handleEndResetTime (settleTime : ℚ) (_isLoading : Bool) : Option ℚ :=
  some (settleTime + settleDelay)

/-- `executeRefresh`'s `finally` block: when the callback settles at
`settleTime`, it schedules the reset only if `props.isLoading` is false,
otherwise the reset is left to the `isLoading` watcher. -/
def executeRefreshResetTime (settleTime : ℚ) (isLoading : Bool) : Option ℚ :=
  if isLoading then none else some (settleTime + settleDelay)

/-- The body of the reset `setTimeout` in the `finally` blocks:
`isRefreshing = false; pullDistance = 0`. -/
def settleResetFire (s : S) : S :=
  { s with isRefreshing := false, pullDistance := 0 }

/-- The `watch(() => props.isLoading, ...)` callback: mirror the external
value into `isRefreshing`. -/
def watchIsLoading (newValue : Bool) (s : S) : S :=
  { s with isRefreshing := newValue }

/-- The watcher's `setTimeout` scheduling: when `isLoading` turns false at
time `now`, a `pullDistance = 0` reset fires at `now + 500`. -/
def watchIsLoadingResetTime (now : ℚ) (newValue : Bool) : Option ℚ :=
  if newValue then none else some (now + settleDelay)

/-- `handleWheel(e)` for an event at time `now` with the given `deltaY`,
target ancestor chain and page scroll offset.  Mirrors the source: the
refreshing / scrolled-away / inner-scrollable guards, the inactivity timer
restart, the 16ms throttle with `accumulatedDelta`, the `0.3` scale and
`2 × threshold` clamp on upward deltas, the immediate `executeRefresh`
trigger for `-deltaY > 50` past threshold, and the `0.5`-scaled decay on
downward deltas. -/
def handleWheel (c : Config) (scrollY : ℚ) (target : List DomNode)
    (now deltaY : ℚ) (s : S) : S :=
  if s.isRefreshing then s
  else if 0 < scrollY then { s with pullDistance := 0, isPulling := false }
  else if isScrollable target then s
  else
    let s1 := { s with lastWheelEventTime := now
                       timerPending := true
                       timerDeadline := now + inactivityDelay }
    if deltaY < 0 then
      if now - s1.lastWheelTime < 16 then
        { s1 with accumulatedDelta := s1.accumulatedDelta + (-deltaY) * (3 / 10) }
      else
        let newDistance := s1.pullDistance + s1.accumulatedDelta + (-deltaY) * (3 / 10)
        let s2 := { s1 with lastWheelTime := now
                            isPulling := true
                            accumulatedDelta := 0
                            pullDistance := min newDistance (c.threshold * 2) }
        if c.threshold ≤ s2.pullDistance ∧ 50 < -deltaY then
          executeRefresh c { s2 with timerPending := false }
        else s2
    else
      if 0 < s1.pullDistance then
        let s2 := { s1 with pullDistance := max 0 (s1.pullDistance - deltaY * (1 / 2)) }
        if s2.pullDistance = 0 then { s2 with isPulling := false } else s2
      else s1

/-- The body of the inactivity `setTimeout` callback: at or above the
threshold, `executeRefresh()`; below it, reset `isPulling` and the
distance; in both cases zero `accumulatedDelta`.  Firing consumes the
pending timer. -/
def inactivityFire (c : Config) (s : S) : S :=
  let s1 :=
    if c.threshold ≤ s.pullDistance then executeRefresh c s
    else { s with isPulling := false, pullDistance := 0 }
  { s1 with accumulatedDelta := 0, timerPending := false }

/-- A touch point: its `clientY`. -/
structure Touch where
  clientY : ℚ
  deriving Repr, DecidableEq

/-- A touch event: its `touches` list and the target's ancestor chain. -/
structure TouchEvent where
  touches : List Touch
  target : List DomNode
  deriving Repr, DecidableEq

/-- `handleTouchStart(e) = handleStart(e.touches[0].clientY, e.target)`:
reading `e.touches[0]` of an empty list throws, modelled as `none`. -/
def handleTouchStart (scrollY : ℚ) (ev : TouchEvent) (s : S) : Option S :=
  match ev.touches with
  | [] => none
  | t :: _ => some (handleStart scrollY t.clientY ev.target s)

/-- `handleTouchMove(e) = handleMove(e.touches[0].clientY, e)`: reading
`e.touches[0]` of an empty list throws, modelled as `none`. -/
def handleTouchMove (scrollY : ℚ) (ev : TouchEvent) (s : S) : Option S :=
  match ev.touches with
  | [] => none
  | t :: _ => some (handleMove scrollY t.clientY s)

/-- `handleTouchEnd() = handleEnd()`: reads no coordinate, total on every
event. -/
def handleTouchEnd (c : Config) (_ev : TouchEvent) (s : S) : Option S :=
  some (handleEnd c s)



/-- C1: for an `onEnd` call in the Pulling state, at or above the threshold
the refresh callback is invoked exactly once, the distance is snapped to
exactly the threshold and the state becomes Refreshing immediately, with
the return to Idle and distance 0 only through the 500ms settle timeout
scheduled after callback settlement; below the threshold the callback is
not invoked and the distance is reset to 0 with Pulling cleared
synchronously. -/
theorem C1_end_pulling (c : Config) (s : S) (h : s.isPulling = true) :
    (c.threshold ≤ s.pullDistance →
       handleEnd c s =
         { s with isDragging := false
                  isPulling := false
                  isRefreshing := true
                  pullDistance := c.threshold
                  callbackCount := s.callbackCount + 1 } ∧
       settleDelay = 500 ∧
       (∀ t l, handleEndResetTime t l = some (t + 500)) ∧
       settleResetFire (handleEnd c s) =
         { s with isDragging := false
                  isPulling := false
                  isRefreshing := false
                  pullDistance := 0
                  callbackCount := s.callbackCount + 1 }) ∧
    (s.pullDistance < c.threshold →
       handleEnd c s = { s with isDragging := false, isPulling := false, pullDistance := 0 }) := by
  constructor
  · intro hth
    refine ⟨?_, rfl, ?_, ?_⟩
    · simp [handleEnd, h, hth]
    · intro t l
      simp [handleEndResetTime, settleDelay]
    · simp [handleEnd, settleResetFire, h, hth]
  · intro hlt
    simp [handleEnd, h, not_le.mpr hlt]



/-- Witness for C1 at threshold 60, distances 75 and 30. -/
theorem C1_end_pulling_witness :
    (handleEnd ⟨60⟩ { initS with isPulling := true, pullDistance := 75 }).callbackCount = 1 ∧
    (handleEnd ⟨60⟩ { initS with isPulling := true, pullDistance := 75 }).pullDistance = 60 ∧
    (handleEnd ⟨60⟩ { initS with isPulling := true, pullDistance := 75 }).isRefreshing = true ∧
    (handleEnd ⟨60⟩ { initS with isPulling := true, pullDistance := 30 }).callbackCount = 0 ∧
    (handleEnd ⟨60⟩ { initS with isPulling := true, pullDistance := 30 }).pullDistance = 0 := by
  have h1 := (C1_end_pulling ⟨60⟩ { initS with isPulling := true, pullDistance := 75 } rfl).1
    (by norm_num)
  have h2 := (C1_end_pulling ⟨60⟩ { initS with isPulling := true, pullDistance := 30 } rfl).2
    (by norm_num)
  rw [h1.1, h2]
  norm_num [initS]

/-- C2 counterexample: with `isLoading = true` at the moment the callback
settles, `handleEnd` still schedules the local 500ms reset (it never
consults `isLoading`), while `executeRefresh` defers it — so the two entry
points do not have the claimed identical settle behaviour. -/
theorem C2_counterexample :
    handleEndResetTime 0 true = some 500 ∧ executeRefreshResetTime 0 true = none := by
  norm_num [handleEndResetTime, executeRefreshResetTime, settleDelay]

/-- C2 (amended): `executeRefresh` has the same synchronous effect as a
qualifying `onEnd` except that it requires no prior Pulling state and
leaves the Dragging flag untouched; at settlement `executeRefresh` defers
the reset to the `isLoading` watcher when `isLoading` is true and
otherwise schedules the 500ms reset, whereas `handleEnd` schedules the
500ms reset unconditionally. -/
theorem C2_exec_vs_end (c : Config) (s : S) (hp : s.isPulling = true)
    (hth : c.threshold ≤ s.pullDistance) :
    executeRefresh c s = { handleEnd c s with isDragging := s.isDragging } ∧
    (∀ t, executeRefreshResetTime t false = some (t + settleDelay)) ∧
    (∀ t, executeRefreshResetTime t true = none) ∧
    (∀ t l, handleEndResetTime t l = some (t + settleDelay)) ∧
    (∀ b s1, watchIsLoading b s1 = { s1 with isRefreshing := b }) ∧
    (∀ t, watchIsLoadingResetTime t false = some (t + settleDelay)) := by
  refine ⟨?_, fun t => rfl, fun t => rfl, fun t l => rfl, fun b s1 => rfl, fun t => rfl⟩
  simp [executeRefresh, handleEnd, hp, hth]

/-- Witness for C2 (amended) at threshold 60, distance 75. -/
theorem C2_exec_vs_end_witness :
    executeRefresh ⟨60⟩ { initS with isPulling := true, isDragging := true, pullDistance := 75 } =
      { handleEnd ⟨60⟩ { initS with isPulling := true, isDragging := true, pullDistance := 75 } with
          isDragging := true } :=
  (C2_exec_vs_end ⟨60⟩
    { initS with isPulling := true, isDragging := true, pullDistance := 75 }
    rfl (by norm_num)).1

/-- C3 counterexample: in a Dragging-but-not-Pulling state, `handleEnd`
clears the Dragging flag, so it is not the claimed full no-op. -/
theorem C3_counterexample :
    ({ initS with isDragging := true } : S).isPulling = false ∧
    ({ initS with isDragging := true } : S).isDragging = true ∧
    (handleEnd ⟨60⟩ { initS with isDragging := true }).isDragging = false := by
  norm_num [handleEnd, initS]

/-- C3 (amended): when not Pulling, `onEnd` clears the Dragging flag and
changes nothing else — distance, Pulling, Refreshing and the callback
count are untouched. -/
theorem C3_end_not_pulling (c : Config) (s : S) (h : s.isPulling = false) :
    handleEnd c s = { s with isDragging := false } := by
  simp [handleEnd, h]

/-- Witness for C3 (amended) in a Dragging state. -/
theorem C3_end_not_pulling_witness :
    handleEnd ⟨60⟩ { initS with isDragging := true } =
      { ({ initS with isDragging := true } : S) with isDragging := false } :=
  C3_end_not_pulling ⟨60⟩ { initS with isDragging := true } rfl



/-- C4 counterexample: in a Pulling (hence non-Idle) state with the page at
top and a non-scrollable target, `handleStart` is still accepted and
overwrites `startY` — acceptance is not restricted to the Idle state and
the call is not a no-op there. -/
theorem C4_counterexample :
    ({ initS with isPulling := true, isDragging := true } : S).isPulling = true ∧
    ({ initS with isPulling := true, isDragging := true } : S).startY = 0 ∧
    (handleStart 0 7 [] { initS with isPulling := true, isDragging := true }).startY = 7 := by
  norm_num [handleStart, isScrollable, initS]

/-- C4 (amended): `onStart(y, target)` is accepted if and only if the state
is not Refreshing, the page scroll offset is at most 5 and the target is
not inside a scrolled nested scrollable ancestor; on acceptance it records
`startY = y` and sets Dragging, otherwise it changes no state. -/
theorem C4_start_characterization (scrollY y : ℚ) (target : List DomNode) (s : S) :
    handleStart scrollY y target s =
      if scrollY ≤ 5 ∧ s.isRefreshing = false ∧ isScrollable target = false then
        { s with startY := y, isDragging := true }
      else s := by
  unfold handleStart
  by_cases h1 : scrollY ≤ 5 ∧ s.isRefreshing = false
  · by_cases h2 : isScrollable target = true
    · simp [h1, h2]
    · simp [h1, eq_false_of_ne_true h2]
  · rw [if_neg h1, if_neg]
    intro hc
    exact h1 ⟨hc.1, hc.2.1⟩

/-- The distance written by `handleMove` during an accepted drag. -/
lemma handleMove_distance (scrollY y : ℚ) (s : S) (hd : s.isDragging = true)
    (hr : s.isRefreshing = false) :
    (handleMove scrollY y s).pullDistance =
      if 0 < y - s.startY ∧ scrollY ≤ 5 then (y - s.startY) * (2 / 5) else 0 := by
  rw [handleMove, hd, hr]
  simp only [Bool.true_eq_false, if_false, Bool.false_eq_true]
  split_ifs with h1 h2 <;> rfl

/-- C5: during an accepted drag (Dragging, not Refreshing, page scroll at
most 5) with `diff = y - startY`: a positive `diff` sets
`pullDistance = diff * 0.4` and Pulling; every Pulling-state sample equals
`max 0 diff * 0.4`; a non-positive `diff` gives distance 0 and clears
Pulling, a negative `diff` also cancels the drag; the resulting distance
is monotone in `diff`. -/
theorem C5_move_accepted (scrollY y : ℚ) (s : S) (hd : s.isDragging = true)
    (hr : s.isRefreshing = false) (hs : scrollY ≤ 5) :
    (0 < y - s.startY →
       handleMove scrollY y s =
         { s with isPulling := true, pullDistance := (y - s.startY) * (2 / 5) }) ∧
    ((handleMove scrollY y s).isPulling = true →
       (handleMove scrollY y s).pullDistance = max 0 (y - s.startY) * (2 / 5)) ∧
    (y - s.startY ≤ 0 →
       (handleMove scrollY y s).pullDistance = 0 ∧
       (handleMove scrollY y s).isPulling = false) ∧
    (y - s.startY < 0 → (handleMove scrollY y s).isDragging = false) ∧
    (0 ≤ y - s.startY → (handleMove scrollY y s).isDragging = s.isDragging) ∧
    (∀ y1 y2 : ℚ, y1 ≤ y2 →
       (handleMove scrollY y1 s).pullDistance ≤ (handleMove scrollY y2 s).pullDistance) := by
  have hchar : ∀ z : ℚ, handleMove scrollY z s =
      if 0 < z - s.startY then
        { s with isPulling := true, pullDistance := (z - s.startY) * (2 / 5) }
      else if z - s.startY < 0 then
        { s with isPulling := false, pullDistance := 0, isDragging := false }
      else
        { s with isPulling := false, pullDistance := 0 } := by
    intro z
    rw [handleMove, hd, hr]
    simp only [Bool.true_eq_false, if_false, Bool.false_eq_true]
    split_ifs <;> first | rfl | tauto
  refine ⟨?_, ?_, ?_, ?_, ?_, ?_⟩
  · intro hpos
    rw [hchar y, if_pos hpos]
  · intro _
    rw [hchar y]
    split_ifs with h1 h2
    · rw [max_eq_right h1.le]
    · rw [max_eq_left h2.le, zero_mul]
    · rw [max_eq_left (not_lt.mp h1), zero_mul]
  · intro hle
    rw [hchar y]
    rcases lt_or_eq_of_le hle with hlt | heq
    · rw [if_neg (not_lt.mpr hle), if_pos hlt]
      exact ⟨rfl, rfl⟩
    · rw [if_neg (not_lt.mpr hle), if_neg (by rw [heq]; exact lt_irrefl 0)]
      exact ⟨rfl, rfl⟩
  · intro hneg
    rw [hchar y, if_neg (not_lt.mpr hneg.le), if_pos hneg]
  · intro hnn
    rw [hchar y]
    split_ifs with h1 h2
    · rw [hd]
    · exact absurd h2 (not_lt.mpr hnn)
    · rfl
  · intro y1 y2 h12
    rw [handleMove_distance scrollY y1 s hd hr, handleMove_distance scrollY y2 s hd hr]
    by_cases h1 : 0 < y1 - s.startY ∧ scrollY ≤ 5
    · rw [if_pos h1, if_pos (⟨by linarith [h1.1], hs⟩ : 0 < y2 - s.startY ∧ scrollY ≤ 5)]
      nlinarith [h1.1]
    · rw [if_neg h1]
      by_cases h2 : 0 < y2 - s.startY ∧ scrollY ≤ 5
      · rw [if_pos h2]
        nlinarith [h2.1]
      · rw [if_neg h2]

/-- Witness for C5: start at 100, move to 250 gives distance 60; move to 40
resets and cancels the drag. -/
theorem C5_move_accepted_witness :
    (handleMove 0 250 { initS with isDragging := true, startY := 100 }).pullDistance = 60 ∧
    (handleMove 0 250 { initS with isDragging := true, startY := 100 }).isPulling = true ∧
    (handleMove 0 40 { initS with isDragging := true, startY := 100 }).pullDistance = 0 ∧
    (handleMove 0 40 { initS with isDragging := true, startY := 100 }).isDragging = false := by
  have h1 := (C5_move_accepted 0 250 { initS with isDragging := true, startY := 100 }
    rfl rfl (by norm_num)).1 (by norm_num [initS])
  have h2 := ((C5_move_accepted 0 40 { initS with isDragging := true, startY := 100 }
    rfl rfl (by norm_num)).2.2.1 (by norm_num [initS]))
  have h3 := ((C5_move_accepted 0 40 { initS with isDragging := true, startY := 100 }
    rfl rfl (by norm_num)).2.2.2.1 (by norm_num [initS]))
  rw [h1]
  refine ⟨by norm_num [initS], rfl, h2.1, h3⟩



/-- `handleWheel` with all three entry guards passed, written as one
branch-explicit case split. -/
lemma handleWheel_body (c : Config) (scrollY now deltaY : ℚ) (target : List DomNode) (s : S)
    (hr : s.isRefreshing = false) (hs : scrollY ≤ 0) (hi : isScrollable target = false) :
    handleWheel c scrollY target now deltaY s =
      if deltaY < 0 then
        if now - s.lastWheelTime < 16 then
          { s with lastWheelEventTime := now
                   timerPending := true
                   timerDeadline := now + inactivityDelay
                   accumulatedDelta := s.accumulatedDelta + (-deltaY) * (3 / 10) }
        else
          if c.threshold ≤
              min (s.pullDistance + s.accumulatedDelta + (-deltaY) * (3 / 10)) (c.threshold * 2) ∧
              50 < -deltaY then
            { s with lastWheelEventTime := now
                     timerDeadline := now + inactivityDelay
                     lastWheelTime := now
                     accumulatedDelta := 0
                     timerPending := false
                     isPulling := false
                     isRefreshing := true
                     pullDistance := c.threshold
                     callbackCount := s.callbackCount + 1 }
          else
            { s with lastWheelEventTime := now
                     timerPending := true
                     timerDeadline := now + inactivityDelay
                     lastWheelTime := now
                     isPulling := true
                     accumulatedDelta := 0
                     pullDistance :=
                       min (s.pullDistance + s.accumulatedDelta + (-deltaY) * (3 / 10))
                         (c.threshold * 2) }
      else
        if 0 < s.pullDistance then
          if max 0 (s.pullDistance - deltaY * (1 / 2)) = 0 then
            { s with lastWheelEventTime := now
                     timerPending := true
                     timerDeadline := now + inactivityDelay
                     pullDistance := max 0 (s.pullDistance - deltaY * (1 / 2))
                     isPulling := false }
          else
            { s with lastWheelEventTime := now
                     timerPending := true
                     timerDeadline := now + inactivityDelay
                     pullDistance := max 0 (s.pullDistance - deltaY * (1 / 2)) }
        else
          { s with lastWheelEventTime := now
                   timerPending := true
                   timerDeadline := now + inactivityDelay } := by
  rw [handleWheel, hr, hi]
  simp only [Bool.false_eq_true, if_false]
  rw [if_neg (not_lt.mpr hs)]
  simp only [executeRefresh]



/-- C6 counterexample: the upward wheel event `deltaY = -300` processed at
or after the 16ms window does not leave `pullDistance` at the clamped
accumulated value 90 with Pulling set: the immediate trigger
(distance at least threshold and `-deltaY > 50`) runs `executeRefresh`,
so the handler ends with distance 60, Pulling false and Refreshing true. -/
theorem C6_counterexample :
    initS.lastWheelTime = 0 ∧
    (handleWheel ⟨60⟩ 0 [] 100 (-300) initS).isPulling = false ∧
    (handleWheel ⟨60⟩ 0 [] 100 (-300) initS).pullDistance = 60 ∧
    (handleWheel ⟨60⟩ 0 [] 100 (-300) initS).isRefreshing = true ∧
    min (initS.pullDistance + initS.accumulatedDelta + (-(-300 : ℚ)) * (3 / 10)) (60 * 2) = 90 := by
  norm_num [handleWheel, initS, isScrollable, inactivityDelay, executeRefresh, min_def]

/-- C6 (amended): an upward wheel event less than 16ms after the last
processed one only adds `-deltaY * 0.3` to the accumulator, leaving the
visible distance untouched; at or after the window the distance becomes
the previous distance plus accumulator plus `-deltaY * 0.3` clamped to
`2 * threshold`, the accumulator is zeroed and Pulling set — unless the
new distance reaches the threshold with `-deltaY > 50`, in which case
`executeRefresh` fires instead; a throttled burst of three `-20` deltas
accumulates invisibly and the first update flushes the full scaled sum
`24`. -/
theorem C6_wheel_throttle (c : Config) (scrollY now deltaY : ℚ) (target : List DomNode) (s : S)
    (hr : s.isRefreshing = false) (hs : scrollY ≤ 0) (hi : isScrollable target = false)
    (hup : deltaY < 0) :
    (now - s.lastWheelTime < 16 →
       handleWheel c scrollY target now deltaY s =
         { s with lastWheelEventTime := now
                  timerPending := true
                  timerDeadline := now + inactivityDelay
                  accumulatedDelta := s.accumulatedDelta + (-deltaY) * (3 / 10) }) ∧
    (16 ≤ now - s.lastWheelTime →
       ¬(c.threshold ≤
           min (s.pullDistance + s.accumulatedDelta + (-deltaY) * (3 / 10)) (c.threshold * 2) ∧
         50 < -deltaY) →
       handleWheel c scrollY target now deltaY s =
         { s with lastWheelEventTime := now
                  timerPending := true
                  timerDeadline := now + inactivityDelay
                  lastWheelTime := now
                  isPulling := true
                  accumulatedDelta := 0
                  pullDistance :=
                    min (s.pullDistance + s.accumulatedDelta + (-deltaY) * (3 / 10))
                      (c.threshold * 2) }) ∧
    (16 ≤ now - s.lastWheelTime →
       (c.threshold ≤
           min (s.pullDistance + s.accumulatedDelta + (-deltaY) * (3 / 10)) (c.threshold * 2) ∧
         50 < -deltaY) →
       handleWheel c scrollY target now deltaY s =
         { s with lastWheelEventTime := now
                  timerDeadline := now + inactivityDelay
                  lastWheelTime := now
                  accumulatedDelta := 0
                  timerPending := false
                  isPulling := false
                  isRefreshing := true
                  pullDistance := c.threshold
                  callbackCount := s.callbackCount + 1 }) ∧
    ((handleWheel ⟨60⟩ 0 [] 1002 (-20)
        { initS with lastWheelTime := 1000, lastWheelEventTime := 1000 }).pullDistance = 0 ∧
     (handleWheel ⟨60⟩ 0 [] 1004 (-20) (handleWheel ⟨60⟩ 0 [] 1002 (-20)
        { initS with lastWheelTime := 1000, lastWheelEventTime := 1000 })).pullDistance = 0 ∧
     (handleWheel ⟨60⟩ 0 [] 1006 (-20) (handleWheel ⟨60⟩ 0 [] 1004 (-20)
        (handleWheel ⟨60⟩ 0 [] 1002 (-20)
          { initS with lastWheelTime := 1000, lastWheelEventTime := 1000 }))).accumulatedDelta
       = 18 ∧
     (handleWheel ⟨60⟩ 0 [] 1006 (-20) (handleWheel ⟨60⟩ 0 [] 1004 (-20)
        (handleWheel ⟨60⟩ 0 [] 1002 (-20)
          { initS with lastWheelTime := 1000, lastWheelEventTime := 1000 }))).pullDistance = 0 ∧
     (handleWheel ⟨60⟩ 0 [] 1020 (-20) (handleWheel ⟨60⟩ 0 [] 1006 (-20)
        (handleWheel ⟨60⟩ 0 [] 1004 (-20) (handleWheel ⟨60⟩ 0 [] 1002 (-20)
          { initS with lastWheelTime := 1000, lastWheelEventTime := 1000 })))).pullDistance
       = 24 ∧
     (handleWheel ⟨60⟩ 0 [] 1020 (-20) (handleWheel ⟨60⟩ 0 [] 1006 (-20)
        (handleWheel ⟨60⟩ 0 [] 1004 (-20) (handleWheel ⟨60⟩ 0 [] 1002 (-20)
          { initS with lastWheelTime := 1000, lastWheelEventTime := 1000 })))).isPulling
       = true) := by
  have hbody := handleWheel_body c scrollY now deltaY target s hr hs hi
  refine ⟨?_, ?_, ?_, ?_⟩
  · intro hth
    rw [hbody, if_pos hup, if_pos hth]
  · intro hth htrig
    rw [hbody, if_pos hup, if_neg (not_lt.mpr hth), if_neg htrig]
  · intro hth htrig
    rw [hbody, if_pos hup, if_neg (not_lt.mpr hth), if_pos htrig]
  · norm_num [handleWheel, initS, isScrollable, inactivityDelay, executeRefresh, min_def]

/-- Witness for C6 (amended): a throttled event 2ms after the last
processed one, and a flush 20ms after it. -/
theorem C6_wheel_throttle_witness :
    (handleWheel ⟨60⟩ 0 [] 1002 (-20) { initS with lastWheelTime := 1000 }).accumulatedDelta
      = 6 ∧
    (handleWheel ⟨60⟩ 0 [] 1002 (-20) { initS with lastWheelTime := 1000 }).pullDistance = 0 ∧
    (handleWheel ⟨60⟩ 0 [] 1020 (-20)
        { initS with lastWheelTime := 1000, accumulatedDelta := 18 }).pullDistance = 24 := by
  have h1 := (C6_wheel_throttle ⟨60⟩ 0 1002 (-20) [] { initS with lastWheelTime := 1000 }
    rfl (by norm_num) rfl (by norm_num)).1 (by norm_num [initS])
  have h2 := (C6_wheel_throttle ⟨60⟩ 0 1020 (-20) []
    { initS with lastWheelTime := 1000, accumulatedDelta := 18 }
    rfl (by norm_num) rfl (by norm_num)).2.1 (by norm_num [initS])
    (by norm_num [initS, min_def])
  rw [h1, h2]
  norm_num [initS, min_def]



/-- C7: every wheel event that is not ignored and does not itself trigger a
refresh leaves the inactivity timer pending with deadline `now + 50`; when
the timer fires, a distance at or above the threshold runs
`executeRefresh` (callback invoked, distance snapped, Refreshing set) and
a smaller distance resets to distance 0 with Pulling cleared. -/
theorem C7_wheel_inactivity (c : Config) (scrollY now deltaY : ℚ) (target : List DomNode) (s : S)
    (hr : s.isRefreshing = false) (hs : scrollY ≤ 0) (hi : isScrollable target = false) :
    inactivityDelay = 50 ∧
    ((handleWheel c scrollY target now deltaY s).callbackCount = s.callbackCount →
       (handleWheel c scrollY target now deltaY s).timerPending = true ∧
       (handleWheel c scrollY target now deltaY s).timerDeadline = now + inactivityDelay) ∧
    (c.threshold ≤ s.pullDistance →
       inactivityFire c s =
         { s with isPulling := false
                  isRefreshing := true
                  pullDistance := c.threshold
                  callbackCount := s.callbackCount + 1
                  accumulatedDelta := 0
                  timerPending := false }) ∧
    (s.pullDistance < c.threshold →
       inactivityFire c s =
         { s with isPulling := false
                  pullDistance := 0
                  accumulatedDelta := 0
                  timerPending := false }) := by
  refine ⟨rfl, ?_, ?_, ?_⟩
  · rw [handleWheel_body c scrollY now deltaY target s hr hs hi]
    split_ifs <;> intro hcb <;> first
      | exact ⟨rfl, rfl⟩
      | (exfalso; simp only [S.callbackCount] at hcb; omega)
  · intro hth
    simp [inactivityFire, executeRefresh, hth]
  · intro hlt
    simp [inactivityFire, executeRefresh, not_le.mpr hlt]

/-- Witness for C7: timer restart at 1000ms, a firing at distance 66 and a
firing at distance 30, threshold 60. -/
theorem C7_wheel_inactivity_witness :
    (handleWheel ⟨60⟩ 0 [] 1000 (-20) initS).timerPending = true ∧
    (handleWheel ⟨60⟩ 0 [] 1000 (-20) initS).timerDeadline = 1050 ∧
    (inactivityFire ⟨60⟩ { initS with pullDistance := 66, isPulling := true }).callbackCount
      = 1 ∧
    (inactivityFire ⟨60⟩ { initS with pullDistance := 30, isPulling := true }).pullDistance
      = 0 := by
  have h1 := (C7_wheel_inactivity ⟨60⟩ 0 1000 (-20) [] initS rfl (by norm_num) rfl).2.1
    (by norm_num [handleWheel, initS, isScrollable, inactivityDelay, executeRefresh, min_def])
  have h2 := (C7_wheel_inactivity ⟨60⟩ 0 1000 (-20) []
    { initS with pullDistance := 66, isPulling := true } rfl (by norm_num) rfl).2.2.1
    (by norm_num [initS])
  have h3 := (C7_wheel_inactivity ⟨60⟩ 0 1000 (-20) []
    { initS with pullDistance := 30, isPulling := true } rfl (by norm_num) rfl).2.2.2
    (by norm_num [initS])
  rw [h2, h3]
  refine ⟨h1.1, ?_, rfl, rfl⟩
  rw [h1.2]
  norm_num [inactivityDelay]

/-- C8 counterexample: with the page at top and the wheel target inside a
scrolled nested scrollable element, the handler returns without touching
state: the pull distance stays 30 and Pulling stays set, instead of the
claimed force-reset. -/
theorem C8_counterexample :
    isScrollable [⟨true, "auto", 5⟩] = true ∧
    handleWheel ⟨60⟩ 0 [⟨true, "auto", 5⟩] 1000 (-20)
        { initS with pullDistance := 30, isPulling := true } =
      { initS with pullDistance := 30, isPulling := true } ∧
    ({ initS with pullDistance := 30, isPulling := true } : S).pullDistance = 30 := by
  refine ⟨by norm_num [isScrollable], ?_, rfl⟩
  norm_num [handleWheel, isScrollable, initS]

/-- C8 (amended): a wheel event with the page scrolled away from top
force-resets the distance to 0 and clears Pulling, ignoring everything
else; with the page at top but the target inside a scrolled nested
scrollable region the event is ignored with no state change at all — no
timer update and no accumulation in either case. -/
theorem C8_wheel_guards (c : Config) (scrollY now deltaY : ℚ) (target : List DomNode) (s : S)
    (hr : s.isRefreshing = false) :
    (0 < scrollY →
       handleWheel c scrollY target now deltaY s =
         { s with pullDistance := 0, isPulling := false }) ∧
    (scrollY ≤ 0 → isScrollable target = true →
       handleWheel c scrollY target now deltaY s = s) := by
  constructor
  · intro hpos
    rw [handleWheel, hr]
    simp only [Bool.false_eq_true, if_false]
    rw [if_pos hpos]
  · intro hs hi
    rw [handleWheel, hr, hi]
    simp only [Bool.false_eq_true, if_false]
    rw [if_neg (not_lt.mpr hs)]
    simp

/-- Witness for C8 (amended): scroll offset 20, and a scrolled inner
element at page top. -/
theorem C8_wheel_guards_witness :
    handleWheel ⟨60⟩ 20 [] 1000 (-20) { initS with pullDistance := 30, isPulling := true } =
      { ({ initS with pullDistance := 30, isPulling := true } : S) with
          pullDistance := 0, isPulling := false } ∧
    handleWheel ⟨60⟩ 0 [⟨true, "scroll", 2⟩] 1000 (-20) initS = initS := by
  have h1 := (C8_wheel_guards ⟨60⟩ 20 1000 (-20) []
    { initS with pullDistance := 30, isPulling := true } rfl).1 (by norm_num)
  have h2 := (C8_wheel_guards ⟨60⟩ 0 1000 (-20) [⟨true, "scroll", 2⟩] initS rfl).2
    (by norm_num) (by norm_num [isScrollable])
  exact ⟨h1, h2⟩

/-- C9 counterexample: wheel events at 1000/1020/1040/1056ms build distance
66 and leave the inactivity timer pending; a mouse-leave `handleEnd` then
starts a refresh (callback count 1, Refreshing); when the pending timer
fires during Refreshing it invokes the callback a second time — a fired
timer callback is not short-circuited by the Refreshing state. -/
theorem C9_counterexample :
    ((handleEnd ⟨60⟩ (handleWheel ⟨60⟩ 0 [] 1056 (-40) (handleWheel ⟨60⟩ 0 [] 1040 (-40)
        (handleWheel ⟨60⟩ 0 [] 1020 (-40)
          (handleWheel ⟨60⟩ 0 [] 1000 (-100) initS))))).isRefreshing = true ∧
     (handleEnd ⟨60⟩ (handleWheel ⟨60⟩ 0 [] 1056 (-40) (handleWheel ⟨60⟩ 0 [] 1040 (-40)
        (handleWheel ⟨60⟩ 0 [] 1020 (-40)
          (handleWheel ⟨60⟩ 0 [] 1000 (-100) initS))))).timerPending = true ∧
     (handleEnd ⟨60⟩ (handleWheel ⟨60⟩ 0 [] 1056 (-40) (handleWheel ⟨60⟩ 0 [] 1040 (-40)
        (handleWheel ⟨60⟩ 0 [] 1020 (-40)
          (handleWheel ⟨60⟩ 0 [] 1000 (-100) initS))))).callbackCount = 1 ∧
     (inactivityFire ⟨60⟩ (handleEnd ⟨60⟩ (handleWheel ⟨60⟩ 0 [] 1056 (-40)
        (handleWheel ⟨60⟩ 0 [] 1040 (-40) (handleWheel ⟨60⟩ 0 [] 1020 (-40)
          (handleWheel ⟨60⟩ 0 [] 1000 (-100) initS)))))).callbackCount = 2 ∧
     (inactivityFire ⟨60⟩ (handleEnd ⟨60⟩ (handleWheel ⟨60⟩ 0 [] 1056 (-40)
        (handleWheel ⟨60⟩ 0 [] 1040 (-40) (handleWheel ⟨60⟩ 0 [] 1020 (-40)
          (handleWheel ⟨60⟩ 0 [] 1000 (-100) initS)))))).isRefreshing = true) := by
  norm_num [handleWheel, handleEnd, inactivityFire, initS, isScrollable, inactivityDelay,
    executeRefresh, min_def]

/-- C9 (amended): while Refreshing, every input event — `onStart`,
`onMove`, wheel — is a strict no-op: the state (distance, flags, timer,
callback count) is returned unchanged, so no input event can start a
second refresh; the inactivity timer callback is not so guarded. -/
theorem C9_refreshing_inputs (c : Config) (scrollY y now deltaY : ℚ)
    (target : List DomNode) (s : S) (hr : s.isRefreshing = true) :
    handleStart scrollY y target s = s ∧
    handleMove scrollY y s = s ∧
    handleWheel c scrollY target now deltaY s = s := by
  refine ⟨?_, ?_, ?_⟩
  · rw [handleStart, hr]
    simp
  · rw [handleMove]
    by_cases hd : s.isDragging = false
    · rw [if_pos hd]
    · rw [if_neg hd, hr]
      simp
  · rw [handleWheel, hr]
    simp

/-- Witness for C9 (amended) in a Refreshing state. -/
theorem C9_refreshing_inputs_witness :
    handleStart 0 100 [] { initS with isRefreshing := true } =
      { initS with isRefreshing := true } ∧
    handleMove 0 100 { initS with isRefreshing := true } =
      { initS with isRefreshing := true } ∧
    handleWheel ⟨60⟩ 0 [] 1000 (-20) { initS with isRefreshing := true } =
      { initS with isRefreshing := true } :=
  C9_refreshing_inputs ⟨60⟩ 0 100 1000 (-20) [] { initS with isRefreshing := true } rfl

/-- C10: the touch adapter start and move handlers read the first touch
point unconditionally — on an event with an empty touch list they throw
(modelled `none`) instead of no-oping, and with at least one touch point
they are total; the end handler reads no coordinate and is total on every
event. -/
theorem C10_touch_requires_point (c : Config) (scrollY : ℚ) (ev : TouchEvent) (s : S) :
    (ev.touches = [] →
       handleTouchStart scrollY ev s = none ∧ handleTouchMove scrollY ev s = none) ∧
    (ev.touches ≠ [] →
       (handleTouchStart scrollY ev s).isSome = true ∧
       (handleTouchMove scrollY ev s).isSome = true) ∧
    handleTouchEnd c ev s = some (handleEnd c s) := by
  refine ⟨?_, ?_, rfl⟩
  · intro h
    simp [handleTouchStart, handleTouchMove, h]
  · intro h
    obtain ⟨t, rest, hev⟩ := List.exists_cons_of_ne_nil h
    simp [handleTouchStart, handleTouchMove, hev]

/-- Witness for C10: an empty touch list and a one-point list. -/
theorem C10_touch_requires_point_witness :
    handleTouchStart 0 ⟨[], []⟩ initS = none ∧
    handleTouchMove 0 ⟨[], []⟩ initS = none ∧
    (handleTouchStart 0 ⟨[⟨100⟩], []⟩ initS).isSome = true := by
  have h1 := (C10_touch_requires_point ⟨60⟩ 0 ⟨[], []⟩ initS).1 rfl
  have h2 := (C10_touch_requires_point ⟨60⟩ 0 ⟨[⟨100⟩], []⟩ initS).2.1 (by simp)
  exact ⟨h1.1, h1.2, h2.1⟩

end PullToRefresh
